/-
Verification of the RAG Q&A pipeline (backend/app): shallow embedding of
the request orchestration (`api/routes.py`), the answer generator
(`services/generation.py`), the interaction logger (`models/database.py`),
the health check, and the startup indexing routine (`main.py`).

External services (OpenAI embeddings, Qdrant search, the chat-completion
model, and the availability of the SQLite log store) are modelled as an
environment of oracles; the code under verification is the Python glue
that sequences them, translated function by function.
-/
import Mathlib

namespace RAG

/-! ## Data model (`models/schemas.py`) -/

/-- RetrievedFAQ (schemas.py): an FAQ with its similarity score from
vector search.  Scores are modelled as rationals. -/
structure RetrievedFAQ where
  faq_id : String
  question : String
  answer : String
  category : String
  similarity_score : ℚ
  deriving Repr, DecidableEq

/-- QueryRequest (schemas.py): the question of the user plus the
`include_sources` flag (default true). -/
structure QueryRequest where
  query : String
  include_sources : Bool := true
  deriving Repr, DecidableEq

/-- QueryResponse (schemas.py): answer, echoed sources, elapsed time.
The timestamp field is wall-clock metadata and is not modelled. -/
structure QueryResponse where
  answer : String
  sources : List RetrievedFAQ
  response_time_ms : ℕ
  deriving Repr, DecidableEq

/-- One row of the `interactions` table (database.py):
the columns written by `log_interaction`. -/
structure LogEntry where
  user_query : String
  retrieved_faq_ids : List String
  ai_response : String
  response_time_ms : ℕ
  relevance_scores : List ℚ
  error_occurred : Bool
  deriving Repr, DecidableEq

/-! ## Interaction logger (`models/database.py`)

The SQLite store is modelled as the list of rows in insertion order;
`log_interaction` is an append. -/

/-- Translation of `Database.log_interaction`: append-only insert of one row. -/
def log_interaction (db : List LogEntry) (e : LogEntry) : List LogEntry :=
  db ++ [e]

/-- Python builtin rounding (round half to even) to an integer. -/
def roundHalfEven (q : ℚ) : ℤ :=
  let f : ℤ := Int.floor q
  let frac : ℚ := q - f
  if frac < 1/2 then f
  else if 1/2 < frac then f + 1
  else if f % 2 = 0 then f else f + 1

/-- Rounding to two decimal places, as `round(x, 2)` in `get_stats`. -/
def round2 (q : ℚ) : ℚ := (roundHalfEven (q * 100) : ℚ) / 100

/-- The `stats` dictionary returned by `Database.get_stats`. -/
structure Stats where
  total_queries : ℕ
  avg_response_time_ms : ℚ
  total_errors : ℕ
  deriving Repr, DecidableEq

/-- Accumulator for the single SQL aggregate pass of `get_stats`:
`COUNT(*)`, the running sum behind `AVG(response_time_ms)`, and
`SUM(CASE WHEN error_occurred THEN 1 ELSE 0 END)`. -/
structure StatsAcc where
  cnt : ℕ
  timeSum : ℕ
  errSum : ℕ
  deriving Repr, DecidableEq

/-- Contribution of one row to the aggregates, as SQLite scans the table. -/
def statsStep (a : StatsAcc) (e : LogEntry) : StatsAcc :=
  { cnt := a.cnt + 1
    timeSum := a.timeSum + e.response_time_ms
    errSum := a.errSum + (if e.error_occurred then 1 else 0) }

/-- Translation of `Database.get_stats`: `COUNT(*)`, `round(AVG(response_time_ms), 2)`
(`row[1] or 0` turns SQL `NULL` on an empty table into `0`), and the
error count.  `AVG` is `SUM/COUNT` over the scanned rows. -/
def get_stats (db : List LogEntry) : Stats :=
  let a := db.foldl statsStep ⟨0, 0, 0⟩
  { total_queries := a.cnt
    avg_response_time_ms := round2 (if a.cnt = 0 then 0 else (a.timeSum : ℚ) / (a.cnt : ℚ))
    total_errors := a.errSum }

/-! ### Aggregate lemmas for `get_stats` -/

lemma statsAcc_foldl (db : List LogEntry) (a : StatsAcc) :
    db.foldl statsStep a =
      ⟨a.cnt + db.length,
       a.timeSum + (db.map LogEntry.response_time_ms).sum,
       a.errSum + (db.filter LogEntry.error_occurred).length⟩ := by
  induction db generalizing a with
  | nil => simp
  | cons e tl ih =>
      simp only [List.foldl_cons, ih, List.length_cons, List.map_cons, List.sum_cons,
        List.filter_cons]
      cases h : e.error_occurred <;>
        simp [statsStep, h] <;> omega

lemma get_stats_count (db : List LogEntry) :
    (get_stats db).total_queries = db.length := by
  simp [get_stats, statsAcc_foldl]

lemma get_stats_errors (db : List LogEntry) :
    (get_stats db).total_errors = (db.filter LogEntry.error_occurred).length := by
  simp [get_stats, statsAcc_foldl]

lemma get_stats_avg (db : List LogEntry) :
    (get_stats db).avg_response_time_ms =
      if db.length = 0 then 0
      else round2 (((db.map LogEntry.response_time_ms).sum : ℚ) / (db.length : ℚ)) := by
  simp only [get_stats, statsAcc_foldl]
  rcases Nat.eq_zero_or_pos db.length with h | h
  · simp [h, round2, roundHalfEven]
  · simp [Nat.pos_iff_ne_zero.mp h]

/-- C7: `get_stats` returns the number of log entries as the total
count, the arithmetic mean of `response_time_ms` rounded to two
decimals as the average (0 on an empty store), and the number of
entries with the error flag set as the total error count. -/
theorem C7_stats_correct (db : List LogEntry) :
    (get_stats db).total_queries = db.length ∧
    (get_stats db).avg_response_time_ms =
      (if db.length = 0 then 0
       else round2 (((db.map LogEntry.response_time_ms).sum : ℚ) / (db.length : ℚ))) ∧
    (get_stats db).total_errors = (db.filter LogEntry.error_occurred).length :=
  ⟨get_stats_count db, get_stats_avg db, get_stats_errors db⟩

/-! ## Answer generator (`services/generation.py`)

The chat-completion call is an oracle `llm : system → user → Except String String`
(returns the message content or an exception text).  All other code of
`AnswerGenerator` is translated literally; apostrophes in the source
strings are written with the `\x27` escape. -/

/-- SYSTEM_PROMPT of `AnswerGenerator` (generation.py, lines 19-27). -/
def SYSTEM_PROMPT : String :=
  "You are a helpful legal information assistant. Your role is to provide clear, accurate answers based on the FAQ context provided.\n\nGuidelines:\n- Base your answer primarily on the provided FAQ context\n- If the context doesn\x27t fully answer the question, acknowledge what information is available\n- Always include a disclaimer that this is general legal information, not legal advice\n- Be concise but thorough\n- Use plain language that non-lawyers can understand\n- Suggest consulting with a qualified attorney for specific situations"

/-- Fixed-point rendering of a score with two decimals, as the Python
format `:.2f` for scores in `[0, 1]`. -/
def formatFixed2 (q : ℚ) : String :=
  let n : ℕ := (roundHalfEven (q * 100)).toNat
  toString (n / 100) ++ "." ++ (if n % 100 < 10 then "0" else "") ++ toString (n % 100)

/-- The per-FAQ lines appended by the loop of `_build_context`
(enumerate starts at 1). -/
def contextParts : ℕ → List RetrievedFAQ → List String
  | _, [] => []
  | idx, faq :: rest =>
      ("\nFAQ " ++ toString idx ++ " (Category: " ++ faq.category ++ ", Relevance: "
          ++ formatFixed2 faq.similarity_score ++ "):")
        :: ("Question: " ++ faq.question)
        :: ("Answer: " ++ faq.answer)
        :: contextParts (idx + 1) rest

/-- Translation of `AnswerGenerator._build_context`. -/
def build_context (retrieved_faqs : List RetrievedFAQ) : String :=
  if retrieved_faqs.isEmpty then
    "No relevant FAQs were found in the database."
  else
    String.intercalate "\n"
      ("Here are the relevant FAQs from our database:\n" :: contextParts 1 retrieved_faqs)

/-- Translation of `AnswerGenerator._build_user_prompt`. -/
def build_user_prompt (user_query : String) (context : String) : String :=
  context ++ "\n\nUser Question: " ++ user_query
    ++ "\n\nPlease provide a helpful answer based on the FAQ context above. If the context doesn\x27t fully address the question, acknowledge the limitations and recommend consulting with an attorney."

/-- The generic apology of `_get_fallback_response` for an empty
retrieved list (generation.py, line 127). -/
def fallbackApology : String :=
  "I apologize, but I\x27m unable to provide an answer at this time. Please try again later or consult with a legal professional."

/-- Text placed before the best FAQ answer by `_get_fallback_response`
(generation.py, line 131). -/
def fallbackIntro : String := "Based on our FAQ database:\n\n"

/-- Disclaimer and unavailability note placed after the best FAQ answer
by `_get_fallback_response` (generation.py, lines 135-137). -/
def fallbackOutro : String :=
  "\n\nNote: This is general legal information from our FAQ database. For advice specific to your situation, please consult with a qualified attorney.\n\n(AI generation temporarily unavailable - showing direct FAQ match)"

/-- Translation of `AnswerGenerator._get_fallback_response`: the most
relevant FAQ answer wrapped in intro and outro, or the generic apology
when nothing was retrieved. -/
def get_fallback_response (retrieved_faqs : List RetrievedFAQ) : String :=
  match retrieved_faqs with
  | [] => fallbackApology
  | best_faq :: _ => fallbackIntro ++ best_faq.answer ++ fallbackOutro

/-- Translation of `AnswerGenerator.generate_answer`: build the prompt,
call the model, and on any exception return the deterministic fallback
instead of re-raising. -/
def generate_answer (llm : String → String → Except String String)
    (user_query : String) (retrieved_faqs : List RetrievedFAQ) : String :=
  match llm SYSTEM_PROMPT (build_user_prompt user_query (build_context retrieved_faqs)) with
  | .ok answer => answer
  | .error _ => get_fallback_response retrieved_faqs

/-! ## Request pipeline (`api/routes.py`, `ask_question`)

The oracles: `embed` for `EmbeddingService.generate_embedding`, `search`
for `FAQRetriever.search` (receiving `top_k` and `score_threshold` from
the settings), `llm` for the chat completion inside `generate_answer`,
and `logFail` for the availability of the SQLite store (`none` means
inserts succeed; `some m` means every insert raises with message `m`).
The trace records, besides the HTTP result and the final log store, the
argument list of every `log_interaction` invocation and of every
`generate_answer` invocation, so that at-most-once / exactly-once
properties are statable. -/

/-- The environment of one request: settings plus external services. -/
structure Env where
  top_k_results : ℕ := 2
  similarity_threshold : ℚ := 3/5
  openai_api_key : String := "sk-test"
  embed : String → Except String (List ℚ)
  search : List ℚ → ℕ → ℚ → Except String (List RetrievedFAQ)
  llm : String → String → Except String String
  logFail : Option String := none

/-- HTTP outcome of the `/api/ask` handler: a `QueryResponse`, or an
`HTTPException` with status code and detail. -/
inductive AskResult where
  | ok (resp : QueryResponse)
  | httpError (status : ℕ) (detail : String)
  deriving Repr, DecidableEq

/-- Execution trace of one `/api/ask` request: outcome, final log store,
the entries passed to each `log_interaction` call (whether or not the
insert succeeded), and the FAQ list passed to each `generate_answer`
call. -/
structure AskTrace where
  result : AskResult
  db : List LogEntry
  recordCalls : List LogEntry
  genArgs : List (List RetrievedFAQ)
  deriving Repr, DecidableEq

/-- Detail string of the HTTP 500 raised by the except block of
`ask_question` (routes.py, lines 121-124). -/
def genericErrorDetail : String :=
  "An error occurred while processing your question. Please try again."

/-- The fixed no-results answer (routes.py, lines 71-75). -/
def notFoundMessage : String :=
  "I couldn\x27t find any relevant information in our FAQ database for your question. This might be outside the scope of our current knowledge base. Please consider rephrasing your question or consulting with a legal professional directly."

/-- The row passed to `log_interaction` in the except block of
`ask_question` (routes.py, lines 110-117). -/
def errorEntry (req : QueryRequest) (e : String) (elapsed : ℕ) : LogEntry :=
  { user_query := req.query
    retrieved_faq_ids := []
    ai_response := "Error: " ++ e
    response_time_ms := elapsed
    relevance_scores := []
    error_occurred := true }

/-- The except block of `ask_question` (routes.py, lines 104-124): try
to write an error row (a failure of this insert is caught and only
logged locally), then raise HTTP 500 with the generic detail.
`records` and `gens` are the calls already traced before the exception
was raised. -/
def handleError (env : Env) (req : QueryRequest) (db : List LogEntry) (elapsed : ℕ)
    (e : String) (records : List LogEntry) (gens : List (List RetrievedFAQ)) : AskTrace :=
  let entry := errorEntry req e elapsed
  match env.logFail with
  | none =>
      { result := .httpError 500 genericErrorDetail
        db := log_interaction db entry
        recordCalls := records ++ [entry]
        genArgs := gens }
  | some _ =>
      { result := .httpError 500 genericErrorDetail
        db := db
        recordCalls := records ++ [entry]
        genArgs := gens }

/-- Steps 4-5 of `ask_question` (routes.py, lines 85-102): build the
success row, insert it, and return the `QueryResponse`.  When the
insert raises, control moves to the except block (`handleError`) with
the message of the logging exception. -/
def successLog (env : Env) (req : QueryRequest) (db : List LogEntry) (elapsed : ℕ)
    (retrieved_faqs : List RetrievedFAQ) (answer : String) (sources : List RetrievedFAQ)
    (gens : List (List RetrievedFAQ)) : AskTrace :=
  let entry : LogEntry :=
    { user_query := req.query
      retrieved_faq_ids := retrieved_faqs.map RetrievedFAQ.faq_id
      ai_response := answer
      response_time_ms := elapsed
      relevance_scores := retrieved_faqs.map RetrievedFAQ.similarity_score
      error_occurred := false }
  match env.logFail with
  | none =>
      { result := .ok { answer := answer, sources := sources, response_time_ms := elapsed }
        db := log_interaction db entry
        recordCalls := [entry]
        genArgs := gens }
  | some m => handleError env req db elapsed m [entry] gens

/-- Translation of the `/api/ask` handler `ask_question` (routes.py,
lines 40-124).  `elapsed` stands for the measured
`int((time.time() - start_time) * 1000)`; wall-clock time is not
modelled, so the same value is used on both paths. -/
def ask_question (env : Env) (req : QueryRequest) (db : List LogEntry) (elapsed : ℕ) :
    AskTrace :=
  match env.embed req.query with
  | .error e => handleError env req db elapsed e [] []
  | .ok query_embedding =>
    match env.search query_embedding env.top_k_results env.similarity_threshold with
    | .error e => handleError env req db elapsed e [] []
    | .ok retrieved_faqs =>
      if retrieved_faqs.isEmpty then
        successLog env req db elapsed retrieved_faqs notFoundMessage [] []
      else
        successLog env req db elapsed retrieved_faqs
          (generate_answer env.llm req.query retrieved_faqs)
          (if req.include_sources then retrieved_faqs else [])
          [retrieved_faqs]

/-! ## Health check (`api/routes.py`, `health_check`) and
`FAQRetriever.get_faq_count` (retrieval.py, lines 137-143) -/

/-- HealthResponse (schemas.py). -/
structure HealthResponse where
  status : String
  qdrant_connected : Bool
  openai_configured : Bool
  faqs_loaded : ℕ
  deriving Repr, DecidableEq

/-- Translation of `FAQRetriever.get_faq_count`: the `points_count` of
the collection, or 0 when `get_collection` raises (connection down or
collection absent). -/
def get_faq_count (collection_info : Except String ℕ) : ℕ :=
  match collection_info with
  | .ok points_count => points_count
  | .error _ => 0

/-- Translation of the `/api/health` handler (routes.py, lines
170-200).  `body_raises` models an exception escaping the try block
(only `get_settings` could raise there); `collection_info` is the
Qdrant `get_collection` outcome consumed by `get_faq_count`. -/
def health_check (body_raises : Option String) (collection_info : Except String ℕ)
    (openai_api_key : String) : HealthResponse :=
  match body_raises with
  | some _ =>
      { status := "unhealthy", qdrant_connected := false
        openai_configured := false, faqs_loaded := 0 }
  | none =>
      let faq_count := get_faq_count collection_info
      let qdrant_connected : Bool := decide (faq_count ≥ 0)
      let openai_configured : Bool := decide (openai_api_key ≠ "")
      { status := if qdrant_connected && openai_configured then "healthy" else "degraded"
        qdrant_connected := qdrant_connected
        openai_configured := openai_configured
        faqs_loaded := faq_count }

/-! ## Startup indexing (`main.py`, lines 83-105, with
`FAQRetriever.index_faqs`, retrieval.py lines 52-82) -/

/-- FAQ (schemas.py): one knowledge-base record. -/
structure FAQ where
  id : String
  question : String
  answer : String
  category : String
  keywords : List String := []
  deriving Repr, DecidableEq

/-- A Qdrant point as built by `index_faqs`: integer id (the list
index), the vector, and the FAQ payload. -/
structure Point where
  id : ℕ
  vector : List ℚ
  faq_id : String
  question : String
  answer : String
  category : String
  keywords : List String
  deriving Repr, DecidableEq

/-- The point list built by the loop of `index_faqs` (ids are the
enumeration indices). -/
def mkPoints : ℕ → List FAQ → List (List ℚ) → List Point
  | _, [], _ => []
  | _, _ :: _, [] => []
  | idx, faq :: fs, emb :: es =>
      { id := idx, vector := emb, faq_id := faq.id, question := faq.question
        answer := faq.answer, category := faq.category, keywords := faq.keywords }
        :: mkPoints (idx + 1) fs es

/-- Qdrant upsert semantics: each new point replaces an existing point
with the same id, otherwise it is appended. -/
def upsertPoints (col : List Point) (pts : List Point) : List Point :=
  pts.foldl
    (fun acc p =>
      if acc.any (fun q => q.id = p.id)
      then acc.map (fun q => if q.id = p.id then p else q)
      else acc ++ [p])
    col

/-- Translation of `FAQRetriever.index_faqs`: raises `ValueError` when
the list lengths differ, otherwise upserts one point per FAQ. -/
def index_faqs (col : List Point) (faqs : List FAQ) (embeddings : List (List ℚ)) :
    Except String (List Point) :=
  if faqs.length ≠ embeddings.length then
    .error "Number of FAQs must match number of embeddings"
  else
    .ok (upsertPoints col (mkPoints 0 faqs embeddings))

/-- Outcome of the startup indexing block: the collection afterwards
and how many embedding batch calls and upsert calls were made. -/
structure StartupResult where
  collection : List Point
  embedBatchCalls : ℕ
  upsertCalls : ℕ
  deriving Repr, DecidableEq

/-- Translation of the indexing part of `startup_event` (main.py, lines
83-105): if `get_faq_count` is 0 the FAQ questions are embedded in one
batch call and indexed; otherwise indexing is skipped.  `embedBatch` is
the oracle for `EmbeddingService.generate_embeddings_batch` (it
re-raises upstream errors); `col` is the current collection, so
`get_faq_count` is its length. -/
def startup_index (embedBatch : List String → Except String (List (List ℚ)))
    (faqs : List FAQ) (col : List Point) : Except String StartupResult :=
  let faq_count := col.length
  if faq_count = 0 then
    match embedBatch (faqs.map FAQ.question) with
    | .error e => .error e
    | .ok embeddings =>
      match index_faqs col faqs embeddings with
      | .error e => .error e
      | .ok col2 => .ok { collection := col2, embedBatchCalls := 1, upsertCalls := 1 }
  else
    .ok { collection := col, embedBatchCalls := 0, upsertCalls := 0 }

/-! ## Concrete instances used by witnesses and counterexamples -/

/-- A retrieved FAQ used in concrete scenarios. -/
def faqA : RetrievedFAQ :=
  { faq_id := "faq-001"
    question := "What should I do after a car accident?"
    answer := "Seek medical attention first and document the scene."
    category := "Personal Injury"
    similarity_score := 17/20 }

/-- A second retrieved FAQ used in concrete scenarios. -/
def faqB : RetrievedFAQ :=
  { faq_id := "faq-002"
    question := "How is bail set?"
    answer := "A judge sets bail considering flight risk and severity of the charge."
    category := "Criminal Law"
    similarity_score := 7/10 }

/-- A valid request (13-character query, sources requested). -/
def reqBail : QueryRequest := { query := "What is bail?" }

/-- Environment whose log store rejects every insert while embedding
and search succeed (search finds nothing). -/
def envLogDown : Env :=
  { embed := fun _ => .ok [1, 0]
    search := fun _ _ _ => .ok []
    llm := fun _ _ => .ok "A generated answer."
    logFail := some "disk I/O error" }

/-- Fully healthy environment: search finds `faqA`, generation and
logging succeed. -/
def envHappy : Env :=
  { embed := fun _ => .ok [1, 0]
    search := fun _ _ _ => .ok [faqA]
    llm := fun _ _ => .ok "A generated answer."
    logFail := none }

/-- Healthy environment in which search returns no results. -/
def envEmptySearch : Env :=
  { embed := fun _ => .ok [1, 0]
    search := fun _ _ _ => .ok []
    llm := fun _ _ => .ok "A generated answer."
    logFail := none }

/-- Environment whose embedding call raises with message `boom`. -/
def envEmbedBoom : Env :=
  { embed := fun _ => .error "boom"
    search := fun _ _ _ => .ok []
    llm := fun _ _ => .ok "unused"
    logFail := none }

/-- Environment whose embedding call raises with message `timeout`. -/
def envEmbedTimeout : Env :=
  { embed := fun _ => .error "timeout"
    search := fun _ _ _ => .ok []
    llm := fun _ _ => .ok "unused"
    logFail := none }

/-- Environment whose search call raises while embedding succeeds. -/
def envSearchDown : Env :=
  { embed := fun _ => .ok [1, 0]
    search := fun _ _ _ => .error "qdrant down"
    llm := fun _ _ => .ok "unused"
    logFail := none }

/-- Environment in which search finds `faqA` but the chat-completion
call raises. -/
def envLLMDown : Env :=
  { embed := fun _ => .ok [1, 0]
    search := fun _ _ _ => .ok [faqA]
    llm := fun _ _ => .error "rate limited"
    logFail := none }

/-- One indexed point, making a non-empty collection for the startup
idempotence witness. -/
def pointA : Point :=
  { id := 0, vector := [1, 0], faq_id := "faq-001"
    question := "What should I do after a car accident?"
    answer := "Seek medical attention first and document the scene."
    category := "Personal Injury", keywords := [] }

/-! ## Theorems for the claims about the request pipeline -/

/-- C1, counterexample: the claim says every request writes exactly one
log entry, never zero and never two.  In the environment `envLogDown`
the log store rejects inserts: the success-path insert raises, the
except block then invokes the logger a second time, and that insert
fails too — so `log_interaction` is invoked twice and zero entries are
persisted, refuting both "never zero" and "never two" at this concrete
input. -/
theorem C1_counterexample :
    (ask_question envLogDown reqBail [] 5).db.length = 0 ∧
    (ask_question envLogDown reqBail [] 5).recordCalls.length = 2 := by
  constructor <;> rfl

/-- C1, amended: for every request in which the log store accepts
inserts, exactly one log entry is written (the store grows by one row
and the logger is invoked exactly once), on the success path and on the
failure path alike. -/
theorem C1_exactly_one_log (env : Env) (req : QueryRequest) (db : List LogEntry)
    (elapsed : ℕ) (hlog : env.logFail = none) :
    (ask_question env req db elapsed).db.length = db.length + 1 ∧
    (ask_question env req db elapsed).recordCalls.length = 1 := by
  unfold ask_question
  cases hemb : env.embed req.query with
  | error e => simp [hemb, handleError, hlog, log_interaction]
  | ok v =>
    cases hs : env.search v env.top_k_results env.similarity_threshold with
    | error e => simp [hemb, hs, handleError, hlog, log_interaction]
    | ok retrieved =>
      cases retrieved with
      | nil => simp [hemb, hs, successLog, hlog, log_interaction]
      | cons f rest => simp [hemb, hs, successLog, hlog, log_interaction]

/-- C1, witness: the amended theorem applied to the healthy concrete
environment. -/
theorem C1_exactly_one_log_witness :
    envHappy.logFail = none ∧
    ((ask_question envHappy reqBail [] 12).db.length = ([] : List LogEntry).length + 1 ∧
     (ask_question envHappy reqBail [] 12).recordCalls.length = 1) :=
  ⟨rfl, C1_exactly_one_log envHappy reqBail [] 12 rfl⟩

/-- C2: for a valid query whose search returns the empty list (and the
log store accepts inserts), the handler returns the fixed not-found
answer with empty sources and appends exactly one log row with
`error_occurred = false`, empty retrieved-id list and empty score
list. -/
theorem C2_no_results_response (env : Env) (req : QueryRequest) (db : List LogEntry)
    (elapsed : ℕ) (v : List ℚ)
    (_hvalid : 5 ≤ req.query.length ∧ req.query.length ≤ 500)
    (hemb : env.embed req.query = .ok v)
    (hsearch : env.search v env.top_k_results env.similarity_threshold = .ok [])
    (hlog : env.logFail = none) :
    ask_question env req db elapsed =
      { result := .ok { answer := notFoundMessage, sources := []
                        response_time_ms := elapsed }
        db := db ++ [{ user_query := req.query, retrieved_faq_ids := []
                       ai_response := notFoundMessage, response_time_ms := elapsed
                       relevance_scores := [], error_occurred := false }]
        recordCalls := [{ user_query := req.query, retrieved_faq_ids := []
                          ai_response := notFoundMessage, response_time_ms := elapsed
                          relevance_scores := [], error_occurred := false }]
        genArgs := [] } := by
  simp [ask_question, hemb, hsearch, successLog, hlog, log_interaction]

/-- C2, witness: the theorem applied to `envEmptySearch` and the valid
13-character query. -/
theorem C2_no_results_response_witness :
    (5 ≤ reqBail.query.length ∧ reqBail.query.length ≤ 500) ∧
    envEmptySearch.embed reqBail.query = .ok [1, 0] ∧
    envEmptySearch.search [1, 0] envEmptySearch.top_k_results
      envEmptySearch.similarity_threshold = .ok [] ∧
    envEmptySearch.logFail = none ∧
    ask_question envEmptySearch reqBail [] 9 =
      { result := .ok { answer := notFoundMessage, sources := []
                        response_time_ms := 9 }
        db := [] ++ [{ user_query := reqBail.query, retrieved_faq_ids := []
                       ai_response := notFoundMessage, response_time_ms := 9
                       relevance_scores := [], error_occurred := false }]
        recordCalls := [{ user_query := reqBail.query, retrieved_faq_ids := []
                          ai_response := notFoundMessage, response_time_ms := 9
                          relevance_scores := [], error_occurred := false }]
        genArgs := [] } :=
  ⟨by decide, rfl, rfl, rfl,
   C2_no_results_response envEmptySearch reqBail [] 9 [1, 0] (by decide) rfl rfl rfl⟩

/-- C3: when retrieval returns at least one item (and the log store
accepts inserts), the response carries the retrieved list as sources
exactly when `include_sources` is true, and the empty list otherwise,
with the generated answer. -/
theorem C3_sources_iff_flag (env : Env) (req : QueryRequest) (db : List LogEntry)
    (elapsed : ℕ) (v : List ℚ) (f : RetrievedFAQ) (rest : List RetrievedFAQ)
    (hemb : env.embed req.query = .ok v)
    (hsearch : env.search v env.top_k_results env.similarity_threshold = .ok (f :: rest))
    (hlog : env.logFail = none) :
    (ask_question env req db elapsed).result =
      .ok { answer := generate_answer env.llm req.query (f :: rest)
            sources := if req.include_sources then f :: rest else []
            response_time_ms := elapsed } := by
  simp [ask_question, hemb, hsearch, successLog, hlog]

/-- C3, witness: the theorem applied to `envHappy` (one retrieved item,
`include_sources = true`). -/
theorem C3_sources_iff_flag_witness :
    envHappy.embed reqBail.query = .ok [1, 0] ∧
    envHappy.search [1, 0] envHappy.top_k_results envHappy.similarity_threshold =
      .ok [faqA] ∧
    envHappy.logFail = none ∧
    (ask_question envHappy reqBail [] 4).result =
      .ok { answer := generate_answer envHappy.llm reqBail.query [faqA]
            sources := if reqBail.include_sources then [faqA] else []
            response_time_ms := 4 } :=
  ⟨rfl, rfl, rfl, C3_sources_iff_flag envHappy reqBail [] 4 [1, 0] faqA [] rfl rfl rfl⟩

/-- C4: when the chat-completion call raises, `generate_answer` does
not propagate the error (it is a total function of its inputs): with a
non-empty retrieved list it returns the answer text of the first item
verbatim between the fixed disclaimer intro and the
generation-unavailable outro, and with an empty list it returns the
fixed apology. -/
theorem C4_generation_fallback (llm : String → String → Except String String)
    (user_query : String) (retrieved_faqs : List RetrievedFAQ) (e : String)
    (hfail : llm SYSTEM_PROMPT
        (build_user_prompt user_query (build_context retrieved_faqs)) = .error e) :
    generate_answer llm user_query retrieved_faqs =
      match retrieved_faqs with
      | [] => fallbackApology
      | best :: _ => fallbackIntro ++ best.answer ++ fallbackOutro := by
  cases retrieved_faqs with
  | nil => simp [generate_answer, hfail, get_fallback_response]
  | cons best rest => simp [generate_answer, hfail, get_fallback_response]

/-- C4, witness: the theorem applied to a failing model call with the
single retrieved item `faqB`. -/
theorem C4_generation_fallback_witness :
    (fun _ _ => (.error "timeout" : Except String String)) SYSTEM_PROMPT
      (build_user_prompt "What is bail?" (build_context [faqB])) = .error "timeout" ∧
    generate_answer (fun _ _ => .error "timeout") "What is bail?" [faqB] =
      fallbackIntro ++ faqB.answer ++ fallbackOutro :=
  ⟨rfl, C4_generation_fallback (fun _ _ => .error "timeout") "What is bail?" [faqB]
    "timeout" rfl⟩

/-- C5, counterexample: the claim says the error log row stores the
error description as its answer field; the code stores the description
prefixed with the fixed marker `Error: `, so for an embedding failure
with description `boom` the stored answer is `Error: boom`, which
differs from `boom`. -/
theorem C5_counterexample :
    (ask_question envEmbedBoom reqBail [] 7).db.map LogEntry.ai_response =
      ["Error: boom"] ∧ "Error: boom" ≠ "boom" := by
  constructor
  · rfl
  · decide

/-- C5, amended: when the embedding or the search call raises with
description `e`, the handler surfaces the generic HTTP 500 detail
(never the raw exception), invokes the logger exactly once with a row
whose answer field is `Error: ` followed by `e`, with zero retrieved
ids, zero scores and the error flag set; the row is appended when the
store accepts inserts, and when the store itself fails the failure is
swallowed and the same generic HTTP 500 is still raised. -/
theorem C5_error_logging (env : Env) (req : QueryRequest) (db : List LogEntry)
    (elapsed : ℕ) (e : String)
    (herr : env.embed req.query = .error e ∨
      ∃ v, env.embed req.query = .ok v ∧
        env.search v env.top_k_results env.similarity_threshold = .error e) :
    (ask_question env req db elapsed).result = .httpError 500 genericErrorDetail ∧
    (ask_question env req db elapsed).recordCalls = [errorEntry req e elapsed] ∧
    (errorEntry req e elapsed).ai_response = "Error: " ++ e ∧
    (errorEntry req e elapsed).retrieved_faq_ids = [] ∧
    (errorEntry req e elapsed).relevance_scores = [] ∧
    (errorEntry req e elapsed).error_occurred = true ∧
    (env.logFail = none →
      (ask_question env req db elapsed).db = db ++ [errorEntry req e elapsed]) ∧
    (∀ m, env.logFail = some m → (ask_question env req db elapsed).db = db) := by
  have htrace : ask_question env req db elapsed =
      handleError env req db elapsed e [] [] := by
    rcases herr with h | ⟨v, hv, hs⟩
    · simp [ask_question, h]
    · simp [ask_question, hv, hs]
  rw [htrace]
  cases hl : env.logFail with
  | none => simp [handleError, hl, errorEntry, log_interaction]
  | some m => simp [handleError, hl, errorEntry]

/-- C5, witness: the amended theorem applied to the concrete
environment whose embedding call raises with `timeout`. -/
theorem C5_error_logging_witness :
    (envEmbedTimeout.embed reqBail.query = .error "timeout" ∨
      ∃ v, envEmbedTimeout.embed reqBail.query = .ok v ∧
        envEmbedTimeout.search v envEmbedTimeout.top_k_results
          envEmbedTimeout.similarity_threshold = .error "timeout") ∧
    (ask_question envEmbedTimeout reqBail [] 6).result =
      .httpError 500 genericErrorDetail ∧
    (ask_question envEmbedTimeout reqBail [] 6).recordCalls =
      [errorEntry reqBail "timeout" 6] :=
  ⟨Or.inl rfl,
   (C5_error_logging envEmbedTimeout reqBail [] 6 "timeout" (Or.inl rfl)).1,
   (C5_error_logging envEmbedTimeout reqBail [] 6 "timeout" (Or.inl rfl)).2.1⟩

/-- The except block never invokes the answer generator: its trace
keeps the generator calls made before the exception. -/
lemma handleError_genArgs (env : Env) (req : QueryRequest) (db : List LogEntry)
    (elapsed : ℕ) (e : String) (records : List LogEntry)
    (gens : List (List RetrievedFAQ)) :
    (handleError env req db elapsed e records gens).genArgs = gens := by
  unfold handleError
  cases env.logFail <;> rfl

/-- The success-path logging step never invokes the answer generator
either. -/
lemma successLog_genArgs (env : Env) (req : QueryRequest) (db : List LogEntry)
    (elapsed : ℕ) (faqs : List RetrievedFAQ) (answer : String)
    (sources : List RetrievedFAQ) (gens : List (List RetrievedFAQ)) :
    (successLog env req db elapsed faqs answer sources gens).genArgs = gens := by
  unfold successLog
  cases env.logFail with
  | none => rfl
  | some m => rw [handleError_genArgs]

/-- C6: the health check computes `qdrant_connected` as
`get_faq_count() >= 0`, which is true for every collection state
because `get_faq_count` returns a count or 0 on error — so with the
generator configured but the vector store unreachable the endpoint
reports `healthy`, not `degraded` as specified. -/
theorem C6_health_divergence :
    (∀ (ci : Except String ℕ) (key : String),
        (health_check none ci key).qdrant_connected = true) ∧
    health_check none (.error "connection refused") "sk-live-key" =
      { status := "healthy", qdrant_connected := true
        openai_configured := true, faqs_loaded := 0 } := by
  refine ⟨fun ci key => ?_, rfl⟩
  simp [health_check]

/-- C8: when the collection already holds at least one point, the
startup indexing routine performs no embedding batch call and no
upsert and leaves the collection unchanged, and running it a second
time on the resulting collection gives the same outcome as running it
once. -/
theorem C8_startup_idempotent
    (embedBatch : List String → Except String (List (List ℚ)))
    (faqs : List FAQ) (col : List Point) (h : 0 < col.length) :
    startup_index embedBatch faqs col =
      .ok { collection := col, embedBatchCalls := 0, upsertCalls := 0 } ∧
    (startup_index embedBatch faqs col).bind
        (fun r => startup_index embedBatch faqs r.collection) =
      startup_index embedBatch faqs col := by
  have hne : col.length ≠ 0 := Nat.pos_iff_ne_zero.mp h
  have h1 : startup_index embedBatch faqs col =
      .ok { collection := col, embedBatchCalls := 0, upsertCalls := 0 } := by
    simp [startup_index, hne]
  refine ⟨h1, ?_⟩
  rw [h1]
  exact h1

/-- C8, witness: the theorem applied to the one-point collection
`[pointA]`. -/
theorem C8_startup_idempotent_witness :
    0 < [pointA].length ∧
    (startup_index (fun _ => (.ok [] : Except String (List (List ℚ)))) [] [pointA] =
        .ok { collection := [pointA], embedBatchCalls := 0, upsertCalls := 0 } ∧
      (startup_index (fun _ => (.ok [] : Except String (List (List ℚ)))) [] [pointA]).bind
          (fun r => startup_index (fun _ => (.ok [] : Except String (List (List ℚ)))) []
            r.collection) =
        startup_index (fun _ => (.ok [] : Except String (List (List ℚ)))) [] [pointA]) :=
  ⟨by decide,
   C8_startup_idempotent (fun _ => (.ok [] : Except String (List (List ℚ)))) [] [pointA]
     (by decide)⟩

/-- C9: through the request pipeline, `generate_answer` is only ever
invoked with a non-empty retrieved list (the empty-search branch
returns the fixed not-found answer without calling the generator), so
the empty-list grounding context and the empty-list apology fallback of
the composer are unreachable from `/api/ask`. -/
theorem C9_generate_only_nonempty (env : Env) (req : QueryRequest) (db : List LogEntry)
    (elapsed : ℕ) (l : List RetrievedFAQ)
    (hmem : l ∈ (ask_question env req db elapsed).genArgs) : l ≠ [] := by
  unfold ask_question at hmem
  cases hemb : env.embed req.query with
  | error e =>
      simp only [hemb, handleError_genArgs] at hmem
      simp at hmem
  | ok v =>
    cases hs : env.search v env.top_k_results env.similarity_threshold with
    | error e =>
        simp only [hemb, hs, handleError_genArgs] at hmem
        simp at hmem
    | ok retrieved =>
      cases retrieved with
      | nil =>
          simp only [hemb, hs, List.isEmpty_nil, if_true, successLog_genArgs] at hmem
          simp at hmem
      | cons f rest =>
          simp only [hemb, hs, List.isEmpty_cons, Bool.false_eq_true, if_false,
            successLog_genArgs, List.mem_singleton] at hmem
          subst hmem
          simp

/-- C9, witness: in the healthy environment with a failing model call,
the only generator invocation receives the singleton list `[faqA]`,
which is non-empty. -/
theorem C9_generate_only_nonempty_witness :
    [faqA] ∈ (ask_question envLLMDown reqBail [] 3).genArgs ∧
    ([faqA] : List RetrievedFAQ) ≠ [] := by
  have hmem : [faqA] ∈ (ask_question envLLMDown reqBail [] 3).genArgs := by
    have hg : (ask_question envLLMDown reqBail [] 3).genArgs = [[faqA]] := rfl
    rw [hg]
    exact List.mem_singleton_self _
  exact ⟨hmem, C9_generate_only_nonempty envLLMDown reqBail [] 3 [faqA] hmem⟩

/-- C10: on a request failing at the embedding or the search call (with
the log store accepting inserts), the persisted error row stores the
raw exception text as `Error: ` followed by the description in its
`ai_response` column, even though the HTTP result carries only the
generic detail. -/
theorem C10_raw_error_in_log (env : Env) (req : QueryRequest) (db : List LogEntry)
    (elapsed : ℕ) (e : String)
    (herr : env.embed req.query = .error e ∨
      ∃ v, env.embed req.query = .ok v ∧
        env.search v env.top_k_results env.similarity_threshold = .error e)
    (hlog : env.logFail = none) :
    (ask_question env req db elapsed).db =
      db ++ [{ user_query := req.query, retrieved_faq_ids := []
               ai_response := "Error: " ++ e, response_time_ms := elapsed
               relevance_scores := [], error_occurred := true }] ∧
    (ask_question env req db elapsed).result = .httpError 500 genericErrorDetail := by
  have htrace : ask_question env req db elapsed =
      handleError env req db elapsed e [] [] := by
    rcases herr with h | ⟨v, hv, hs⟩
    · simp [ask_question, h]
    · simp [ask_question, hv, hs]
  rw [htrace]
  simp [handleError, hlog, errorEntry, log_interaction]

/-- C10, witness: the theorem applied to the environment whose search
call raises with description `qdrant down`. -/
theorem C10_raw_error_in_log_witness :
    (envSearchDown.embed reqBail.query = .error "qdrant down" ∨
      ∃ v, envSearchDown.embed reqBail.query = .ok v ∧
        envSearchDown.search v envSearchDown.top_k_results
          envSearchDown.similarity_threshold = .error "qdrant down") ∧
    envSearchDown.logFail = none ∧
    ((ask_question envSearchDown reqBail [] 8).db =
      [] ++ [{ user_query := reqBail.query, retrieved_faq_ids := []
               ai_response := "Error: " ++ "qdrant down", response_time_ms := 8
               relevance_scores := [], error_occurred := true }] ∧
     (ask_question envSearchDown reqBail [] 8).result =
       .httpError 500 genericErrorDetail) :=
  ⟨Or.inr ⟨[1, 0], rfl, rfl⟩, rfl,
   C10_raw_error_in_log envSearchDown reqBail [] 8 "qdrant down"
     (Or.inr ⟨[1, 0], rfl, rfl⟩) rfl⟩

end RAG
